import Mathlib

/-
Verification of the REST request-dispatch core of the hikari repository.

The repository source tree contains the unit tests of the REST pipeline
(tests/hikari/impl/test_rest.py) and the session data model
(hikari/sessions.py), but not hikari/impl/rest.py itself.  Components of
rest.py are therefore modelled from the specification (spec.md), with the
behaviour pinned down by the unit tests taken as authoritative wherever the
two disagree.  hikari/sessions.py is embedded directly from its source.
-/

namespace Hikari

/-- The Authorization header name, from the constant referenced by the tests
as rest._AUTHORIZATION_HEADER. -/
def _AUTHORIZATION_HEADER : String := "Authorization"

/-- The redaction marker substituted for the Authorization header value, from
the expected strings of test__stringify_http_message_when_body_is_None. -/
def _REDACTED_TOKEN : String := "**REDACTED TOKEN**"

/-- One step of Python str.title: an alphabetic character is uppercased when
the previous character was not alphabetic and lowercased otherwise. -/
def pyTitleGo : Bool → List Char → List Char
  | _, [] => []
  | prevCased, c :: cs =>
    if c.isAlpha then
      (if prevCased then c.toLower else c.toUpper) :: pyTitleGo true cs
    else
      c :: pyTitleGo false cs

/-- Python str.title restricted to ASCII strings, as applied to token_type by
the RESTClientImpl constructor. -/
def pyTitle (s : String) : String := String.mk (pyTitleGo false s.data)

/-- The token argument accepted by the RESTClientImpl constructor: None, a
plain string token, or a TokenStrategy instance. -/
inductive TokenArg where
  | noToken
  | str (token : String)
  | strategy
  deriving Repr, DecidableEq

/-- The authorization value stored on the client after construction: either a
ready header string or a live token strategy. -/
inductive StoredToken where
  | header (value : String)
  | strategy
  deriving Repr, DecidableEq

/-- Modelled from the spec: hikari/impl/rest.py is absent from the source
tree, so the token-handling part of RESTClientImpl.__init__ is reconstructed
from section 6 of the spec and the constructor unit tests.  A string token is
combined with the title-cased token type (defaulting to the Bot type), a
TokenStrategy must not come with a token type, and a None token stores no
authorization value. -/
def RESTClientImpl.init (token : TokenArg) (token_type : Option String) :
    Except String (Option StoredToken) :=
  match token with
  | .str t =>
      let tt := token_type.getD "Bot"
      .ok (some (.header (pyTitle tt ++ " " ++ t)))
  | .strategy =>
      if token_type.isSome then
        .error "Token type should be handled by the token strategy"
      else
        .ok (some .strategy)
  | .noToken => .ok none

/-- Renders one header line of a stringified HTTP message, redacting the
Authorization header value. -/
def stringifyHeader (h : String × String) : String :=
  if h.1 = _AUTHORIZATION_HEADER then
    "    " ++ h.1 ++ ": " ++ _REDACTED_TOKEN
  else
    "    " ++ h.1 ++ ": " ++ h.2

/-- Modelled from the spec: RESTClientImpl._stringify_http_message is absent
from the source tree; reconstructed from section 7 of the spec (surfaced
errors never leak the credential value) and the two stringify unit tests.
Each header becomes an indented name: value line, the Authorization value is
replaced by the redaction marker, and a non-None body is appended after a
blank line. -/
def _stringify_http_message (headers : List (String × String)) (body : Option String) :
    String :=
  let s := String.intercalate "\n" (headers.map stringifyHeader)
  match body with
  | none => s
  | some b => s ++ "\n\n    " ++ b

/-- Replaces the value of every Authorization entry of a header list by the
redaction marker, leaving all other entries unchanged. -/
def redactAuthorization (headers : List (String × String)) : List (String × String) :=
  headers.map fun h =>
    if h.1 = _AUTHORIZATION_HEADER then (h.1, _REDACTED_TOKEN) else h

/-- Wire payload of the session_start_limit object, from hikari/sessions.py:
the max_concurrency field may be absent (marshie mdefault=1). -/
structure SessionStartLimitPayload where
  total : Int
  remaining : Int
  reset_after_minutes : Int
  max_concurrency : Option Int
  deriving Repr, DecidableEq

/-- Deserialized SessionStartLimit entity, from hikari/sessions.py. -/
structure SessionStartLimit where
  total : Int
  remaining : Int
  reset_after_minutes : Int
  max_concurrency : Int
  deriving Repr, DecidableEq

/-- The max_concurrency deserializer of hikari/sessions.py line 59:
deserialize is the function taking v to max(v, 1) and the marshie default for
an absent field is 1. -/
def deserialize_max_concurrency : Option Int → Int
  | none => 1
  | some v => max v 1

/-- Field-by-field deserialization of SessionStartLimit as declared by the
marshie attribs of hikari/sessions.py lines 43-59. -/
def deserializeSessionStartLimit (p : SessionStartLimitPayload) : SessionStartLimit :=
  { total := p.total
    remaining := p.remaining
    reset_after_minutes := p.reset_after_minutes
    max_concurrency := deserialize_max_concurrency p.max_concurrency }

/-- An HTTP response as seen by the request pipeline: the status code, whether
the content type is application/json, the parsed X-RateLimit-Remaining and
X-RateLimit-Reset-After headers when present, the global flag and retry_after
value of a 429 JSON body, the X-RateLimit-Bucket header when present, and the
decoded payload of a success response. -/
structure HttpResponse where
  status : Nat
  content_type_json : Bool
  remaining_header : Option Int
  reset_after_header : Option Rat
  body_global : Bool
  body_retry_after : Rat
  bucket_header : Option String
  payload : String
  deriving Repr, DecidableEq

/-- Outcome of RESTClientImpl._parse_ratelimits for one response. -/
inductive RateLimitOutcome where
  | ok
  | httpResponseError
  | retryRequest
  | rateLimitedError (retry_after : Rat)
  deriving Repr, DecidableEq

/-- Result of _parse_ratelimits together with the arguments of the
GlobalThrottle.throttle calls it performed. -/
structure ParseResult where
  outcome : RateLimitOutcome
  global_throttles : List Rat
  deriving Repr, DecidableEq

/-- Python math.isclose with its default relative tolerance of one part in a
billion, used to compare the body retry_after with the reset-after header. -/
def isClose (a b : Rat) : Bool := |a - b| ≤ max |a| |b| / 1000000000

/-- True when the X-RateLimit-Remaining header is present and at most 0. -/
def remainingLE0 : Option Int → Bool
  | some r => decide (r ≤ 0)
  | none => false

/-- True when the X-RateLimit-Reset-After header is present and close to the
body retry_after value, the heuristic threshold of section 9 of the spec. -/
def closeEnough (resp : HttpResponse) : Bool :=
  match resp.reset_after_header with
  | some ra => isClose resp.body_retry_after ra
  | none => false

/-- Modelled from the spec: RESTClientImpl._parse_ratelimits is absent from
the source tree; reconstructed from sections 4.4, 4.5 and 9 of the spec and
the five _parse_ratelimits unit tests.  A non-429 passes through; a 429 with
a non-JSON body is a fatal HTTP response error; a global 429 throttles the
global gate and retries; a 429 whose remaining header is at most 0, or whose
body retry_after is close to the reset-after header, retries; any other 429
surfaces a rate-limited error. -/
def _parse_ratelimits (resp : HttpResponse) : ParseResult :=
  if resp.status = 429 then
    if resp.content_type_json then
      if resp.body_global then
        ⟨.retryRequest, [resp.body_retry_after]⟩
      else if remainingLE0 resp.remaining_header then
        ⟨.retryRequest, []⟩
      else if closeEnough resp then
        ⟨.retryRequest, []⟩
      else
        ⟨.rateLimitedError resp.body_retry_after, []⟩
    else
      ⟨.httpResponseError, []⟩
  else
    ⟨.ok, []⟩

/-- Observable events of one _request run, in the order they happen. -/
inductive ReqEvent where
  | bucketAcquire
  | globalAcquire
  | tokenAcquire (token : String)
  | transport (authHeader : Option String)
  | bucketUpdate (bucket : String)
  | globalThrottle (seconds : Rat)
  | tokenInvalidate (token : String)
  deriving Repr, DecidableEq

/-- How authentication was requested for one _request call: the default
client credential, no_auth=True, or an explicit auth value. -/
inductive AuthSetting where
  | default
  | noAuth
  | explicitAuth (value : String)
  deriving Repr, DecidableEq

def AuthSetting.isNoAuth : AuthSetting → Bool
  | .noAuth => true
  | _ => false

def AuthSetting.isDefault : AuthSetting → Bool
  | .default => true
  | _ => false

def isStrategyToken : Option StoredToken → Bool
  | some .strategy => true
  | _ => false

/-- True when a 401 response may still trigger the single forced-refresh
retry: default authentication through a token strategy, on a request that has
not already consumed its one retry. -/
def canReauth (auth : AuthSetting) (token : Option StoredToken) (retried : Bool) : Bool :=
  auth.isDefault && isStrategyToken token && !retried

/-- Modelled from the spec: the header-building step of the absent
RESTClientImpl._request, from section 2 of the spec and the
test__request_when_no_auth_passed / auth_passed / token tests.  Returns the
Authorization header value, if any, and the credential-acquisition events
performed.  A token strategy yields the token at the current acquisition
index of the scripted token sequence. -/
def credentialHeader (auth : AuthSetting) (token : Option StoredToken)
    (toks : List String) (tokIdx : Nat) : Option String × List ReqEvent :=
  match auth with
  | .explicitAuth v => (some v, [])
  | .noAuth => (none, [])
  | .default =>
    match token with
    | none => (none, [])
    | some (.header s) => (some s, [])
    | some .strategy =>
        let t := toks.getD tokIdx ""
        (some t, [.tokenAcquire t])

/-- The bucket-tracker update events caused by one response: an update is fed
back exactly when the response carries a bucket header. -/
def bucketUpdateEvents : Option String → List ReqEvent
  | some b => [ReqEvent.bucketUpdate b]
  | none => []

/-- Modelled from the spec: the events of a single Start-to-Transport attempt
of the absent RESTClientImpl._request, from section 4.4 of the spec amended
by the unit tests: the bucket permit is acquired first, the global throttle
is acquired unless no_auth was passed, the credential is obtained, the
transport call is made, and the bucket tracker is updated from the response
headers. -/
def attemptEvents (auth : AuthSetting) (token : Option StoredToken)
    (toks : List String) (tokIdx : Nat) (resp : HttpResponse) : List ReqEvent :=
  let ch := credentialHeader auth token toks tokIdx
  [ReqEvent.bucketAcquire]
    ++ (if auth.isNoAuth then [] else [ReqEvent.globalAcquire])
    ++ ch.2
    ++ [ReqEvent.transport ch.1]
    ++ bucketUpdateEvents resp.bucket_header

/-- Final outcome of one _request run. -/
inductive ReqOutcome where
  | success (payload : String)
  | unauthorizedError
  | httpResponseError
  | rateLimitedError (retry_after : Rat)
  | errorResponse (status : Nat)
  | scriptExhausted
  deriving Repr, DecidableEq

/-- Outcome of a run together with its full event trace. -/
structure ReqRun where
  outcome : ReqOutcome
  trace : List ReqEvent
  deriving Repr, DecidableEq

/-- Modelled from the spec: the retry loop of the absent
RESTClientImpl._request, from section 4.4 of the spec and the _request unit
tests.  Each attempt performs its acquisitions and the transport call against
the next scripted response; a retry-classified 429 loops without touching the
credential budget; a 2xx succeeds; a 401 under the default auth with a token
strategy invalidates the current token and retries exactly once with the next
acquired token; a second 401 surfaces the unauthorized error; other statuses
surface a response error. -/
def requestLoop (auth : AuthSetting) (token : Option StoredToken)
    (toks : List String) : Bool → Nat → List HttpResponse → ReqRun
  | _, _, [] => ⟨.scriptExhausted, []⟩
  | retried, tokIdx, resp :: rest =>
      let evs := attemptEvents auth token toks tokIdx resp
      let parsed := _parse_ratelimits resp
      let tevs := parsed.global_throttles.map ReqEvent.globalThrottle
      match parsed.outcome with
      | .retryRequest =>
          let r := requestLoop auth token toks retried tokIdx rest
          ⟨r.outcome, evs ++ tevs ++ r.trace⟩
      | .httpResponseError => ⟨.httpResponseError, evs ++ tevs⟩
      | .rateLimitedError ra => ⟨.rateLimitedError ra, evs ++ tevs⟩
      | .ok =>
          if 200 ≤ resp.status ∧ resp.status < 300 then
            ⟨.success resp.payload, evs ++ tevs⟩
          else if resp.status = 401 then
            if canReauth auth token retried then
              let r := requestLoop auth token toks true (tokIdx + 1) rest
              ⟨r.outcome, evs ++ tevs ++ [ReqEvent.tokenInvalidate (toks.getD tokIdx "")] ++ r.trace⟩
            else
              ⟨.unauthorizedError, evs ++ tevs⟩
          else
            ⟨.errorResponse resp.status, evs ++ tevs⟩

/-- Entry point of a logical request: fresh attempt counters. -/
def runRequest (auth : AuthSetting) (token : Option StoredToken)
    (toks : List String) (responses : List HttpResponse) : ReqRun :=
  requestLoop auth token toks false 0 responses

def ReqEvent.isTransport : ReqEvent → Bool
  | .transport _ => true
  | _ => false

def ReqEvent.isInvalidate : ReqEvent → Bool
  | .tokenInvalidate _ => true
  | _ => false

def ReqEvent.isBucketUpdate : ReqEvent → Bool
  | .bucketUpdate _ => true
  | _ => false

/-- Number of transport calls recorded in a trace. -/
def countTransports (l : List ReqEvent) : Nat := (l.filter ReqEvent.isTransport).length

/-- Number of credential invalidations (forced refreshes) in a trace. -/
def countInvalidates (l : List ReqEvent) : Nat := (l.filter ReqEvent.isInvalidate).length

/-- Number of bucket-tracker updates in a trace. -/
def countBucketUpdates (l : List ReqEvent) : Nat := (l.filter ReqEvent.isBucketUpdate).length

/-- The Authorization header values of the transport calls of a trace, in
order. -/
def transportHeaders (l : List ReqEvent) : List (Option String) :=
  l.filterMap fun e =>
    match e with
    | .transport h => some h
    | _ => none

/-- An OAuth2 token response from authorize_client_credentials_token: the
token type, the access token, and the lifetime in seconds. -/
structure OAuthToken where
  token_type : String
  access_token : String
  expires_in : Rat
  deriving Repr, DecidableEq

/-- State of a ClientCredentialsStrategy instance: the cached header value,
its monotonic expiry time, and the cached refresh failure, if any.  Errors
are identified by their numeric code. -/
structure ClientCredentialsStrategy where
  token : Option String
  expire_at : Rat
  exception : Option Nat
  deriving Repr, DecidableEq

/-- A freshly constructed strategy: nothing cached. -/
def initialStrategy : ClientCredentialsStrategy := ⟨none, 0, none⟩

/-- Result of one acquire call. -/
inductive AcquireResult where
  | ok (token : String)
  | error (e : Nat)
  deriving Repr, DecidableEq

/-- One acquire call: its result, the strategy state it leaves behind, and
the number of underlying token-authorization calls it performed. -/
structure AcquireStep where
  result : AcquireResult
  state : ClientCredentialsStrategy
  refreshCalls : Nat
  deriving Repr, DecidableEq

/-- The cached token is expired once the monotonic clock reaches the stored
expiry time. -/
def ClientCredentialsStrategy.is_expired (s : ClientCredentialsStrategy) (now : Rat) : Bool :=
  decide (s.expire_at ≤ now)

/-- Modelled from the spec: the refresh step of the absent
ClientCredentialsStrategy.acquire, from section 4.3 of the spec amended by
test_acquire_caches_client_http_response_error: a previously cached refresh
failure is re-raised without a new authorization call; otherwise one
authorization call is made, a failure is cached and propagated, and a success
caches the new header value with its discounted expiry. -/
def ClientCredentialsStrategy.doRefresh (s : ClientCredentialsStrategy) (now : Rat)
    (authorize : Except Nat OAuthToken) : AcquireStep :=
  match s.exception with
  | some e => ⟨.error e, s, 0⟩
  | none =>
    match authorize with
    | .error e => ⟨.error e, { s with exception := some e }, 1⟩
    | .ok tok =>
        let value := tok.token_type ++ " " ++ tok.access_token
        let fresh : ClientCredentialsStrategy :=
          { token := some value
            expire_at := now + ((Rat.floor (tok.expires_in * 99 / 100) : Int) : Rat)
            exception := none }
        ⟨.ok value, fresh, 1⟩

/-- The body of acquire once the exclusive lock is held: re-check the cache,
then refresh. -/
def ClientCredentialsStrategy.acquireLocked (s : ClientCredentialsStrategy) (now : Rat)
    (authorize : Except Nat OAuthToken) : AcquireStep :=
  match s.token with
  | some t => if s.is_expired now then s.doRefresh now authorize else ⟨.ok t, s, 0⟩
  | none => s.doRefresh now authorize

/-- Modelled from the spec: ClientCredentialsStrategy.acquire is absent from
the source tree; reconstructed from section 4.3 of the spec and the
TestClientCredentialsStrategy unit tests.  A cached unexpired token is
returned on the fast path with no lock and no refresh; otherwise the caller
takes the exclusive lock, re-checks the cache, and refreshes.  Concurrent
callers are serialized by the lock, so a gather of N concurrent acquires is
embedded as N sequential acquire steps threaded through the state. -/
def ClientCredentialsStrategy.acquire (s : ClientCredentialsStrategy) (now : Rat)
    (authorize : Except Nat OAuthToken) : AcquireStep :=
  match s.token with
  | some t => if s.is_expired now then s.acquireLocked now authorize else ⟨.ok t, s, 0⟩
  | none => s.acquireLocked now authorize

/-- Invalidates the cached token when it matches the given header value, from
the invalidate contract of section 4.3. -/
def ClientCredentialsStrategy.invalidate (s : ClientCredentialsStrategy) (token : String) :
    ClientCredentialsStrategy :=
  if s.token = some token then { s with token := none, expire_at := 0 } else s

/-- N acquire calls serialized by the refresh lock: the list of results, the
final state, and the total number of underlying authorization calls. -/
def acquireMany (s : ClientCredentialsStrategy) (now : Rat)
    (authorize : Except Nat OAuthToken) : Nat → List AcquireResult × ClientCredentialsStrategy × Nat
  | 0 => ([], s, 0)
  | n + 1 =>
      let step := s.acquire now authorize
      let tail := acquireMany step.state now authorize n
      (step.result :: tail.1, tail.2.1, step.refreshCalls + tail.2.2)

/-! Helper lemmas about event counting and the step behaviour of the
request loop. -/

theorem countTransports_append (a b : List ReqEvent) :
    countTransports (a ++ b) = countTransports a + countTransports b := by
  simp [countTransports, List.filter_append]

theorem countInvalidates_append (a b : List ReqEvent) :
    countInvalidates (a ++ b) = countInvalidates a + countInvalidates b := by
  simp [countInvalidates, List.filter_append]

theorem countBucketUpdates_append (a b : List ReqEvent) :
    countBucketUpdates (a ++ b) = countBucketUpdates a + countBucketUpdates b := by
  simp [countBucketUpdates, List.filter_append]

theorem transportHeaders_append (a b : List ReqEvent) :
    transportHeaders (a ++ b) = transportHeaders a ++ transportHeaders b := by
  simp [transportHeaders, List.filterMap_append]

theorem countTransports_bucketUpdateEvents (o : Option String) :
    countTransports (bucketUpdateEvents o) = 0 := by
  cases o <;> simp [bucketUpdateEvents, countTransports, ReqEvent.isTransport]

theorem countInvalidates_bucketUpdateEvents (o : Option String) :
    countInvalidates (bucketUpdateEvents o) = 0 := by
  cases o <;> simp [bucketUpdateEvents, countInvalidates, ReqEvent.isInvalidate]

theorem countTransports_credEvents (auth : AuthSetting) (token : Option StoredToken)
    (toks : List String) (idx : Nat) :
    countTransports (credentialHeader auth token toks idx).2 = 0 := by
  cases auth <;> try rfl
  cases token with
  | none => rfl
  | some st => cases st <;> rfl

theorem countInvalidates_credEvents (auth : AuthSetting) (token : Option StoredToken)
    (toks : List String) (idx : Nat) :
    countInvalidates (credentialHeader auth token toks idx).2 = 0 := by
  cases auth <;> try rfl
  cases token with
  | none => rfl
  | some st => cases st <;> rfl

theorem countTransports_ite_global (c : Bool) :
    countTransports (if c then [] else [ReqEvent.globalAcquire]) = 0 := by
  cases c <;> rfl

theorem countInvalidates_ite_global (c : Bool) :
    countInvalidates (if c then [] else [ReqEvent.globalAcquire]) = 0 := by
  cases c <;> rfl

theorem countTransports_attempt (auth : AuthSetting) (token : Option StoredToken)
    (toks : List String) (idx : Nat) (resp : HttpResponse) :
    countTransports (attemptEvents auth token toks idx resp) = 1 := by
  simp only [attemptEvents, countTransports_append, countTransports_credEvents,
    countTransports_bucketUpdateEvents, countTransports_ite_global]
  rfl

theorem countInvalidates_attempt (auth : AuthSetting) (token : Option StoredToken)
    (toks : List String) (idx : Nat) (resp : HttpResponse) :
    countInvalidates (attemptEvents auth token toks idx resp) = 0 := by
  simp only [attemptEvents, countInvalidates_append, countInvalidates_credEvents,
    countInvalidates_bucketUpdateEvents, countInvalidates_ite_global]
  rfl

theorem countTransports_throttles (l : List Rat) :
    countTransports (l.map ReqEvent.globalThrottle) = 0 := by
  induction l with
  | nil => rfl
  | cons a l ih => simp [countTransports, List.filter, ReqEvent.isTransport] at ih ⊢

theorem countInvalidates_throttles (l : List Rat) :
    countInvalidates (l.map ReqEvent.globalThrottle) = 0 := by
  induction l with
  | nil => rfl
  | cons a l ih => simp [countInvalidates, List.filter, ReqEvent.isInvalidate] at ih ⊢

theorem parse_not_429 (resp : HttpResponse) (h : resp.status ≠ 429) :
    _parse_ratelimits resp = ⟨.ok, []⟩ := by
  simp [_parse_ratelimits, h]

theorem requestLoop_success_first (auth : AuthSetting) (token : Option StoredToken)
    (toks : List String) (retried : Bool) (idx : Nat) (resp : HttpResponse)
    (rest : List HttpResponse) (h2 : 200 ≤ resp.status) (h3 : resp.status < 300) :
    requestLoop auth token toks retried idx (resp :: rest) =
      ⟨.success resp.payload, attemptEvents auth token toks idx resp⟩ := by
  have hp : _parse_ratelimits resp = ⟨.ok, []⟩ := parse_not_429 resp (by omega)
  simp [requestLoop, hp, h2, h3]

theorem requestLoop_retry_first (auth : AuthSetting) (token : Option StoredToken)
    (toks : List String) (retried : Bool) (idx : Nat) (resp : HttpResponse)
    (rest : List HttpResponse)
    (h : (_parse_ratelimits resp).outcome = .retryRequest) :
    requestLoop auth token toks retried idx (resp :: rest) =
      ⟨(requestLoop auth token toks retried idx rest).outcome,
       attemptEvents auth token toks idx resp
         ++ (_parse_ratelimits resp).global_throttles.map ReqEvent.globalThrottle
         ++ (requestLoop auth token toks retried idx rest).trace⟩ := by
  simp [requestLoop, h]

theorem requestLoop_401_strategy_first (toks : List String) (idx : Nat)
    (resp : HttpResponse) (rest : List HttpResponse) (h : resp.status = 401) :
    requestLoop .default (some .strategy) toks false idx (resp :: rest) =
      ⟨(requestLoop .default (some .strategy) toks true (idx + 1) rest).outcome,
       attemptEvents .default (some .strategy) toks idx resp
         ++ [ReqEvent.tokenInvalidate (toks.getD idx "")]
         ++ (requestLoop .default (some .strategy) toks true (idx + 1) rest).trace⟩ := by
  have hp : _parse_ratelimits resp = ⟨.ok, []⟩ := parse_not_429 resp (by omega)
  simp [requestLoop, hp, h, canReauth, AuthSetting.isDefault, isStrategyToken]

theorem requestLoop_401_retried (auth : AuthSetting) (token : Option StoredToken)
    (toks : List String) (idx : Nat) (resp : HttpResponse) (rest : List HttpResponse)
    (h : resp.status = 401) :
    requestLoop auth token toks true idx (resp :: rest) =
      ⟨.unauthorizedError, attemptEvents auth token toks idx resp⟩ := by
  have hp : _parse_ratelimits resp = ⟨.ok, []⟩ := parse_not_429 resp (by omega)
  simp [requestLoop, hp, h, canReauth]

theorem requestLoop_401_plain (auth : AuthSetting) (token : Option StoredToken)
    (toks : List String) (retried : Bool) (idx : Nat) (resp : HttpResponse)
    (rest : List HttpResponse) (h : resp.status = 401)
    (hna : canReauth auth token retried = false) :
    requestLoop auth token toks retried idx (resp :: rest) =
      ⟨.unauthorizedError, attemptEvents auth token toks idx resp⟩ := by
  have hp : _parse_ratelimits resp = ⟨.ok, []⟩ := parse_not_429 resp (by omega)
  simp [requestLoop, hp, h, hna]

theorem transportHeaders_bucketUpdateEvents (o : Option String) :
    transportHeaders (bucketUpdateEvents o) = [] := by
  cases o <;> rfl

theorem transportHeaders_credEvents (auth : AuthSetting) (token : Option StoredToken)
    (toks : List String) (idx : Nat) :
    transportHeaders (credentialHeader auth token toks idx).2 = [] := by
  cases auth <;> try rfl
  cases token with
  | none => rfl
  | some st => cases st <;> rfl

theorem transportHeaders_ite_global (c : Bool) :
    transportHeaders (if c then [] else [ReqEvent.globalAcquire]) = [] := by
  cases c <;> rfl

theorem transportHeaders_throttles (l : List Rat) :
    transportHeaders (l.map ReqEvent.globalThrottle) = [] := by
  induction l with
  | nil => rfl
  | cons a l ih => simp [transportHeaders, List.filterMap_cons] at ih ⊢

theorem transportHeaders_attempt (auth : AuthSetting) (token : Option StoredToken)
    (toks : List String) (idx : Nat) (resp : HttpResponse) :
    transportHeaders (attemptEvents auth token toks idx resp) =
      [(credentialHeader auth token toks idx).1] := by
  simp only [attemptEvents, transportHeaders_append, transportHeaders_credEvents,
    transportHeaders_bucketUpdateEvents, transportHeaders_ite_global]
  rfl

theorem requestLoop_contentType_first (auth : AuthSetting) (token : Option StoredToken)
    (toks : List String) (retried : Bool) (idx : Nat) (resp : HttpResponse)
    (rest : List HttpResponse)
    (hpo : (_parse_ratelimits resp).outcome = .httpResponseError) :
    requestLoop auth token toks retried idx (resp :: rest) =
      ⟨.httpResponseError,
       attemptEvents auth token toks idx resp
         ++ (_parse_ratelimits resp).global_throttles.map ReqEvent.globalThrottle⟩ := by
  simp [requestLoop, hpo]

theorem requestLoop_surfaced_first (auth : AuthSetting) (token : Option StoredToken)
    (toks : List String) (retried : Bool) (idx : Nat) (resp : HttpResponse)
    (rest : List HttpResponse) (ra : Rat)
    (hpo : (_parse_ratelimits resp).outcome = .rateLimitedError ra) :
    requestLoop auth token toks retried idx (resp :: rest) =
      ⟨.rateLimitedError ra,
       attemptEvents auth token toks idx resp
         ++ (_parse_ratelimits resp).global_throttles.map ReqEvent.globalThrottle⟩ := by
  simp [requestLoop, hpo]

theorem requestLoop_ok_no_reauth (auth : AuthSetting) (token : Option StoredToken)
    (toks : List String) (retried : Bool) (idx : Nat) (resp : HttpResponse)
    (rest : List HttpResponse)
    (hpo : (_parse_ratelimits resp).outcome = .ok)
    (hno : canReauth auth token retried = false) :
    (requestLoop auth token toks retried idx (resp :: rest)).trace =
      attemptEvents auth token toks idx resp
        ++ (_parse_ratelimits resp).global_throttles.map ReqEvent.globalThrottle := by
  simp only [requestLoop, hpo, hno]
  split
  · rfl
  · split <;> rfl

/-! The claim theorems. -/

/-- C7: the stringified HTTP message never depends on the Authorization
header value — replacing that value leaves the output unchanged, redacting a
whole header list is invisible to the output, and every non-Authorization
header is rendered with its value intact. -/
theorem C7_authorization_redacted :
    (∀ (headers : List (String × String)) (body : Option String),
        _stringify_http_message headers body =
          _stringify_http_message (redactAuthorization headers) body)
      ∧ (∀ (pre post : List (String × String)) (v w : String) (body : Option String),
          _stringify_http_message (pre ++ (_AUTHORIZATION_HEADER, v) :: post) body =
            _stringify_http_message (pre ++ (_AUTHORIZATION_HEADER, w) :: post) body)
      ∧ ∀ n u : String, n ≠ _AUTHORIZATION_HEADER →
          stringifyHeader (n, u) = "    " ++ n ++ ": " ++ u := by
  have hpoint : ∀ h : String × String,
      stringifyHeader (if h.1 = _AUTHORIZATION_HEADER then (h.1, _REDACTED_TOKEN) else h) =
        stringifyHeader h := by
    intro h
    by_cases hh : h.1 = _AUTHORIZATION_HEADER <;> simp [stringifyHeader, hh]
  have hmain : ∀ (headers : List (String × String)) (body : Option String),
      _stringify_http_message headers body =
        _stringify_http_message (redactAuthorization headers) body := by
    intro headers body
    have : (redactAuthorization headers).map stringifyHeader = headers.map stringifyHeader := by
      simp only [redactAuthorization, List.map_map]
      exact List.map_congr_left fun h _ => hpoint h
    simp only [_stringify_http_message, this]
  refine ⟨hmain, fun pre post v w body => ?_, fun n u hn => by simp [stringifyHeader, hn]⟩
  have hv := hmain (pre ++ (_AUTHORIZATION_HEADER, v) :: post) body
  have hw := hmain (pre ++ (_AUTHORIZATION_HEADER, w) :: post) body
  have hred : redactAuthorization (pre ++ (_AUTHORIZATION_HEADER, v) :: post) =
      redactAuthorization (pre ++ (_AUTHORIZATION_HEADER, w) :: post) := by
    simp [redactAuthorization]
  rw [hv, hw, hred]

/-- C7 witness: the concrete header list of the stringify unit tests, with
two different Authorization values producing the same rendered message, and
a non-Authorization header rendered intact. -/
theorem C7_authorization_redacted_witness :
    _stringify_http_message
        [("HEADER1", "value1"), ("HEADER2", "value2"),
          (_AUTHORIZATION_HEADER, "this will never see the light of day")] none =
      _stringify_http_message
        [("HEADER1", "value1"), ("HEADER2", "value2"), (_AUTHORIZATION_HEADER, "x")] none
    ∧ stringifyHeader ("HEADER1", "value1") = "    " ++ "HEADER1" ++ ": " ++ "value1" :=
  ⟨C7_authorization_redacted.2.1 [("HEADER1", "value1"), ("HEADER2", "value2")] []
      "this will never see the light of day" "x" none,
   C7_authorization_redacted.2.2 "HEADER1" "value1" (by decide)⟩

/-- C8: constructing the client with a token strategy and a non-None token
type is rejected with the exact ValueError message, and constructing it with
token None stores no authorization value. -/
theorem C8_constructor_token_validation :
    (∀ tt : String,
        RESTClientImpl.init .strategy (some tt) =
          .error "Token type should be handled by the token strategy")
      ∧ RESTClientImpl.init .noToken none = .ok none :=
  ⟨fun _ => rfl, rfl⟩

/-- C9: a string token with a string token type stores the title-cased type,
a space, and the unchanged token (tYpe plus some_token gives
Type some_token), and every transport call of an authenticated request with a
stored string token sends exactly that stored value as the Authorization
header. -/
theorem C9_token_header_generation :
    RESTClientImpl.init (.str "some_token") (some "tYpe") =
        .ok (some (.header "Type some_token"))
      ∧ (∀ t tt : String,
          RESTClientImpl.init (.str t) (some tt) =
            .ok (some (.header (pyTitle tt ++ " " ++ t))))
      ∧ ∀ (s : String) (toks : List String) (responses : List HttpResponse)
          (retried : Bool) (idx : Nat) (h : Option String),
          h ∈ transportHeaders
              (requestLoop .default (some (.header s)) toks retried idx responses).trace →
          h = some s := by
  have hval : pyTitle "tYpe" ++ " " ++ "some_token" = "Type some_token" := by decide
  refine ⟨by rw [← hval]; rfl, fun t tt => rfl, fun s toks responses => ?_⟩
  induction responses with
  | nil =>
      intro retried idx h hm
      simp [requestLoop, transportHeaders] at hm
  | cons resp rest ih =>
      intro retried idx h hm
      have hcred : credentialHeader .default (some (.header s)) toks idx = (some s, []) := rfl
      have hone : h ∈ [(credentialHeader .default (some (.header s)) toks idx).1] → h = some s := by
        rw [hcred]
        simp
      cases hpo : (_parse_ratelimits resp).outcome with
      | retryRequest =>
          rw [requestLoop_retry_first _ _ _ _ _ _ _ hpo] at hm
          simp only [List.append_assoc, transportHeaders_append, transportHeaders_attempt,
            transportHeaders_throttles, List.mem_append, List.nil_append,
            List.not_mem_nil, false_or] at hm
          rcases hm with hm | hm
          · exact hone (List.mem_singleton.mpr (List.mem_singleton.mp hm))
          · exact ih retried idx h hm
      | ok =>
          have hno : canReauth .default (some (.header s)) retried = false := by
            simp [canReauth, isStrategyToken]
          rw [requestLoop_ok_no_reauth _ _ _ _ _ _ _ hpo hno] at hm
          simp only [transportHeaders_append, transportHeaders_attempt,
            transportHeaders_throttles, List.append_nil, List.mem_append] at hm
          exact hone hm
      | httpResponseError =>
          rw [requestLoop_contentType_first _ _ _ _ _ _ _ hpo] at hm
          simp only [transportHeaders_append, transportHeaders_attempt,
            transportHeaders_throttles, List.append_nil, List.mem_append] at hm
          exact hone hm
      | rateLimitedError ra =>
          rw [requestLoop_surfaced_first _ _ _ _ _ _ _ _ hpo] at hm
          simp only [transportHeaders_append, transportHeaders_attempt,
            transportHeaders_throttles, List.append_nil, List.mem_append] at hm
          exact hone hm

/-- C10: every deserialized session-start-limit payload yields a
max_concurrency of at least 1 — the wire value is clamped with max(v, 1) and
an absent field defaults to 1. -/
theorem C10_max_concurrency_at_least_one (p : SessionStartLimitPayload) :
    1 ≤ (deserializeSessionStartLimit p).max_concurrency
      ∧ deserialize_max_concurrency none = 1
      ∧ ∀ v : Int, deserialize_max_concurrency (some v) = max v 1 := by
  refine ⟨?_, rfl, fun v => rfl⟩
  cases hp : p.max_concurrency with
  | none => simp [deserializeSessionStartLimit, deserialize_max_concurrency, hp]
  | some v =>
      simp only [deserializeSessionStartLimit, deserialize_max_concurrency, hp]
      exact le_max_right v 1

/-- A plain 401 Unauthorized response, as in the retry unit tests. -/
def r401c : HttpResponse := ⟨401, true, none, none, false, 0, none, ""⟩

/-- A plain 200 success response with payload ok. -/
def resp200 : HttpResponse := ⟨200, true, none, none, false, 0, none, "ok"⟩

theorem countTransports_invalidate (t : String) (l : List ReqEvent) :
    countTransports (ReqEvent.tokenInvalidate t :: l) = countTransports l := by
  simp [countTransports, List.filter_cons, ReqEvent.isTransport]

theorem countInvalidates_invalidate (t : String) (l : List ReqEvent) :
    countInvalidates (ReqEvent.tokenInvalidate t :: l) = countInvalidates l + 1 := by
  simp [countInvalidates, List.filter_cons, ReqEvent.isInvalidate, Nat.add_comm]

/-- C1: under a token strategy, two consecutive 401 responses exhaust the
credential-retry budget — the run surfaces the unauthorized error after
exactly 2 transport calls and 1 forced refresh, performing no further
transport call whatever responses are still scripted; a 401 followed by a
success yields the success payload with exactly 2 transport calls and 1
refresh; and with a plain string token the very first 401 is already fatal
after a single transport call. -/
theorem C1_credential_retry_budget :
    (∀ (r1 r2 : HttpResponse) (rest : List HttpResponse) (toks : List String),
        r1.status = 401 → r2.status = 401 →
        (requestLoop .default (some .strategy) toks false 0 (r1 :: r2 :: rest)).outcome
            = .unauthorizedError
          ∧ countTransports
              (requestLoop .default (some .strategy) toks false 0 (r1 :: r2 :: rest)).trace = 2
          ∧ countInvalidates
              (requestLoop .default (some .strategy) toks false 0 (r1 :: r2 :: rest)).trace = 1)
      ∧ (∀ (r1 rok : HttpResponse) (toks : List String),
          r1.status = 401 → 200 ≤ rok.status → rok.status < 300 →
          (requestLoop .default (some .strategy) toks false 0 [r1, rok]).outcome
              = .success rok.payload
            ∧ countTransports
                (requestLoop .default (some .strategy) toks false 0 [r1, rok]).trace = 2
            ∧ countInvalidates
                (requestLoop .default (some .strategy) toks false 0 [r1, rok]).trace = 1)
      ∧ ∀ (r1 : HttpResponse) (rest : List HttpResponse) (toks : List String) (s : String),
          r1.status = 401 →
          (requestLoop .default (some (.header s)) toks false 0 (r1 :: rest)).outcome
              = .unauthorizedError
            ∧ countTransports
                (requestLoop .default (some (.header s)) toks false 0 (r1 :: rest)).trace = 1
            ∧ countInvalidates
                (requestLoop .default (some (.header s)) toks false 0 (r1 :: rest)).trace = 0 := by
  refine ⟨fun r1 r2 rest toks h1 h2 => ?_, fun r1 rok toks h1 h2 h3 => ?_,
    fun r1 rest toks s h1 => ?_⟩
  · rw [requestLoop_401_strategy_first toks 0 r1 (r2 :: rest) h1,
      requestLoop_401_retried .default (some .strategy) toks (0 + 1) r2 rest h2]
    refine ⟨rfl, ?_, ?_⟩
    · simp [countTransports_append, countTransports_attempt, countTransports_invalidate]
    · simp [countInvalidates_append, countInvalidates_attempt, countInvalidates_invalidate]
  · rw [requestLoop_401_strategy_first toks 0 r1 [rok] h1,
      requestLoop_success_first .default (some .strategy) toks true (0 + 1) rok [] h2 h3]
    refine ⟨rfl, ?_, ?_⟩
    · simp [countTransports_append, countTransports_attempt, countTransports_invalidate]
    · simp [countInvalidates_append, countInvalidates_attempt, countInvalidates_invalidate]
  · have hna : canReauth .default (some (.header s)) false = false := by
      simp [canReauth, isStrategyToken]
    rw [requestLoop_401_plain .default (some (.header s)) toks false 0 r1 rest h1 hna]
    exact ⟨rfl, countTransports_attempt _ _ _ _ _, countInvalidates_attempt _ _ _ _ _⟩

/-- C1 witness: three scripted 401 responses stop after 2 transports with the
unauthorized error; a 401 then a 200 succeeds with 2 transports and 1
refresh. -/
theorem C1_credential_retry_budget_witness :
    ((requestLoop .default (some .strategy) ["t1", "t2"] false 0 [r401c, r401c, r401c]).outcome
        = .unauthorizedError
      ∧ countTransports
          (requestLoop .default (some .strategy) ["t1", "t2"] false 0 [r401c, r401c, r401c]).trace = 2
      ∧ countInvalidates
          (requestLoop .default (some .strategy) ["t1", "t2"] false 0 [r401c, r401c, r401c]).trace = 1)
    ∧ ((requestLoop .default (some .strategy) ["t1", "t2"] false 0 [r401c, resp200]).outcome
        = .success "ok"
      ∧ countTransports
          (requestLoop .default (some .strategy) ["t1", "t2"] false 0 [r401c, resp200]).trace = 2
      ∧ countInvalidates
          (requestLoop .default (some .strategy) ["t1", "t2"] false 0 [r401c, resp200]).trace = 1) :=
  ⟨C1_credential_retry_budget.1 r401c r401c [r401c] ["t1", "t2"] rfl rfl,
   C1_credential_retry_budget.2.1 r401c resp200 ["t1", "t2"] rfl (by decide) (by decide)⟩

theorem globalAcquire_not_mem_noAuth_attempt (token : Option StoredToken)
    (toks : List String) (idx : Nat) (resp : HttpResponse) :
    ReqEvent.globalAcquire ∉ attemptEvents .noAuth token toks idx resp := by
  simp only [attemptEvents, credentialHeader, AuthSetting.isNoAuth]
  cases resp.bucket_header <;> simp [bucketUpdateEvents]

theorem globalAcquire_not_mem_throttles (l : List Rat) :
    ReqEvent.globalAcquire ∉ l.map ReqEvent.globalThrottle := by
  simp

/-- C4 counterexample: a call submitted with no_auth never asks the
GlobalThrottle for permission and attaches no credential — its whole trace is
the bucket acquisition followed directly by a transport call with no
Authorization header, refuting the claimed
bucket-global-credential-transport sequence for every call. -/
theorem C4_counterexample :
    ReqEvent.globalAcquire ∉ (runRequest .noAuth (some (.header "token")) [] [resp200]).trace
      ∧ (runRequest .noAuth (some (.header "token")) [] [resp200]).trace
          = [ReqEvent.bucketAcquire, ReqEvent.transport none] := by
  decide

/-- C4 amended: authenticated calls acquire in the order bucket permit, then
global throttle, then credential, then transport; calls submitted with
no_auth skip the global throttle and the credential entirely, going straight
from the bucket permit to the transport call, and no event of a no_auth run
is ever a global-throttle acquisition. -/
theorem C4_amended_acquisition_order :
    (∀ (auth : AuthSetting) (token : Option StoredToken) (toks : List String) (idx : Nat)
        (resp : HttpResponse), auth.isNoAuth = false →
        attemptEvents auth token toks idx resp =
          [ReqEvent.bucketAcquire, ReqEvent.globalAcquire]
            ++ (credentialHeader auth token toks idx).2
            ++ [ReqEvent.transport (credentialHeader auth token toks idx).1]
            ++ bucketUpdateEvents resp.bucket_header)
      ∧ (∀ (token : Option StoredToken) (toks : List String) (idx : Nat) (resp : HttpResponse),
          attemptEvents .noAuth token toks idx resp =
            [ReqEvent.bucketAcquire, ReqEvent.transport none]
              ++ bucketUpdateEvents resp.bucket_header)
      ∧ ∀ (token : Option StoredToken) (toks : List String) (retried : Bool) (idx : Nat)
          (responses : List HttpResponse),
          ReqEvent.globalAcquire ∉ (requestLoop .noAuth token toks retried idx responses).trace := by
  refine ⟨fun auth token toks idx resp hna => ?_, fun token toks idx resp => ?_,
    fun token toks => ?_⟩
  · simp [attemptEvents, hna]
  · simp [attemptEvents, credentialHeader, AuthSetting.isNoAuth]
  · intro retried idx responses
    induction responses generalizing retried idx with
    | nil => simp [requestLoop]
    | cons resp rest ih =>
        have hattempt := globalAcquire_not_mem_noAuth_attempt token toks idx resp
        have hthr := globalAcquire_not_mem_throttles
          (_parse_ratelimits resp).global_throttles
        cases hpo : (_parse_ratelimits resp).outcome with
        | retryRequest =>
            rw [requestLoop_retry_first _ _ _ _ _ _ _ hpo]
            simp only [ReqRun.trace, List.mem_append, List.append_assoc]
            rintro (hm | hm | hm)
            · exact hattempt hm
            · exact hthr hm
            · exact ih retried idx hm
        | ok =>
            have hno : canReauth .noAuth token retried = false := by
              simp [canReauth, AuthSetting.isDefault]
            rw [requestLoop_ok_no_reauth _ _ _ _ _ _ _ hpo hno]
            simp only [List.mem_append]
            rintro (hm | hm)
            · exact hattempt hm
            · exact hthr hm
        | httpResponseError =>
            rw [requestLoop_contentType_first _ _ _ _ _ _ _ hpo]
            simp only [ReqRun.trace, List.mem_append]
            rintro (hm | hm)
            · exact hattempt hm
            · exact hthr hm
        | rateLimitedError ra =>
            rw [requestLoop_surfaced_first _ _ _ _ _ _ _ _ hpo]
            simp only [ReqRun.trace, List.mem_append]
            rintro (hm | hm)
            · exact hattempt hm
            · exact hthr hm

/-- C4 amended witness: the ordered attempt events of a concrete
authenticated call. -/
theorem C4_amended_acquisition_order_witness :
    attemptEvents .default (some (.header "t")) [] 0 resp200 =
      [ReqEvent.bucketAcquire, ReqEvent.globalAcquire]
        ++ (credentialHeader .default (some (.header "t")) [] 0).2
        ++ [ReqEvent.transport (credentialHeader .default (some (.header "t")) [] 0).1]
        ++ bucketUpdateEvents resp200.bucket_header :=
  C4_amended_acquisition_order.1 .default (some (.header "t")) [] 0 resp200 rfl

/-- A 429 response with no rate-limit headers, global false, and a body
retry_after of 4 seconds — the unexpected-429 shape of
test__parse_ratelimits_when_retry_after_is_not_close_enough. -/
def resp429unexpected : HttpResponse := ⟨429, true, none, none, false, 4, none, ""⟩

/-- C2 counterexample: an unexpected 429 — not global, no remaining header at
0, and a body retry_after far from the reset-after header — surfaces a
RateLimitedError to the caller even though the model imposes no rate-limit
budget at all, refuting the claim that an unlimited max_rate_limit means no
rate-limit error is ever surfaced. -/
theorem C2_counterexample :
    (_parse_ratelimits resp429unexpected).outcome = .rateLimitedError 4
      ∧ (runRequest .default (some (.header "t")) [] [resp429unexpected]).outcome
          = .rateLimitedError 4 := by
  decide

/-- C2 amended: a 429 that is global, or whose remaining header is at most 0,
or whose body retry_after is close to the reset-after header, is always
recovered internally by retrying; such retries have no maximum count — any
number of retry-classified 429s followed by a success yields the success
payload with one transport call per response; but a 429 matching none of
those shapes surfaces a RateLimitedError carrying the body retry_after. -/
theorem C2_amended_ratelimit_recovery :
    (∀ resp : HttpResponse, resp.status = 429 → resp.content_type_json = true →
        (resp.body_global = true ∨ remainingLE0 resp.remaining_header = true
          ∨ closeEnough resp = true) →
        (_parse_ratelimits resp).outcome = .retryRequest)
      ∧ (∀ (auth : AuthSetting) (token : Option StoredToken) (toks : List String)
          (retried : Bool) (idx : Nat) (pre : List HttpResponse) (rok : HttpResponse),
          (∀ r ∈ pre, (_parse_ratelimits r).outcome = .retryRequest) →
          200 ≤ rok.status → rok.status < 300 →
          (requestLoop auth token toks retried idx (pre ++ [rok])).outcome
              = .success rok.payload
            ∧ countTransports
                (requestLoop auth token toks retried idx (pre ++ [rok])).trace
                = pre.length + 1)
      ∧ ∀ resp : HttpResponse, resp.status = 429 → resp.content_type_json = true →
          resp.body_global = false → remainingLE0 resp.remaining_header = false →
          closeEnough resp = false →
          (_parse_ratelimits resp).outcome = .rateLimitedError resp.body_retry_after := by
  refine ⟨fun resp h1 h2 h3 => ?_, fun auth token toks retried idx pre rok => ?_,
    fun resp h1 h2 h3 h4 h5 => ?_⟩
  · rcases h3 with h3 | h3 | h3
    · simp [_parse_ratelimits, h1, h2, h3]
    · by_cases hg : resp.body_global <;> simp [_parse_ratelimits, h1, h2, h3, hg]
    · by_cases hg : resp.body_global <;>
        by_cases hr : remainingLE0 resp.remaining_header <;>
          simp [_parse_ratelimits, h1, h2, h3, hg, hr]
  · induction pre generalizing retried idx with
    | nil =>
        intro hpre h2 h3
        rw [List.nil_append, requestLoop_success_first auth token toks retried idx rok [] h2 h3]
        exact ⟨rfl, countTransports_attempt _ _ _ _ _⟩
    | cons r pre ih =>
        intro hpre h2 h3
        have hr : (_parse_ratelimits r).outcome = .retryRequest := hpre r (List.mem_cons_self r pre)
        have hrest : ∀ x ∈ pre, (_parse_ratelimits x).outcome = .retryRequest :=
          fun x hx => hpre x (List.mem_cons_of_mem _ hx)
        rw [List.cons_append, requestLoop_retry_first auth token toks retried idx r
          (pre ++ [rok]) hr]
        obtain ⟨ho, hc⟩ := ih retried idx hrest h2 h3
        refine ⟨ho, ?_⟩
        simp only [ReqRun.trace, countTransports_append, countTransports_attempt,
          countTransports_throttles, hc, List.length_cons]
        omega
  · simp [_parse_ratelimits, h1, h2, h3, h4, h5]

/-- C2 amended witness: two retry-classified 429s (one global, one with the
remaining header at 0) followed by a success complete with 3 transport
calls, and the unexpected 429 satisfies the surfacing conjunct. -/
theorem C2_amended_ratelimit_recovery_witness :
    ((requestLoop .default (some (.header "t")) [] false 0
        [⟨429, true, none, none, true, 2, none, ""⟩,
          ⟨429, true, some 0, none, false, 2, none, ""⟩, resp200]).outcome = .success "ok"
      ∧ countTransports
          (requestLoop .default (some (.header "t")) [] false 0
            [⟨429, true, none, none, true, 2, none, ""⟩,
              ⟨429, true, some 0, none, false, 2, none, ""⟩, resp200]).trace = 3)
    ∧ (_parse_ratelimits resp429unexpected).outcome = .rateLimitedError 4 :=
  ⟨C2_amended_ratelimit_recovery.2.1 .default (some (.header "t")) [] false 0
      [⟨429, true, none, none, true, 2, none, ""⟩,
        ⟨429, true, some 0, none, false, 2, none, ""⟩] resp200
      (by intro r hr; fin_cases hr <;> decide) (by decide) (by decide),
   C2_amended_ratelimit_recovery.2.2 resp429unexpected rfl rfl rfl (by decide) (by decide)⟩

/-- The global 429 of Scenario B: status 429, JSON body with global true and
retry_after 2. -/
def resp429global : HttpResponse := ⟨429, true, none, none, true, 2, none, ""⟩

/-- C5: a global 429 yields the retry outcome with a
GlobalThrottle.throttle call carrying the body retry_after; on the concrete
Scenario B response the run throttles the global gate with 2.0 exactly once,
performs no per-route bucket update, and retries the attempt through a
second transport call to success. -/
theorem C5_global_ratelimit_throttle :
    (∀ resp : HttpResponse, resp.status = 429 → resp.content_type_json = true →
        resp.body_global = true →
        _parse_ratelimits resp = ⟨.retryRequest, [resp.body_retry_after]⟩)
      ∧ ((runRequest .default (some (.header "t")) [] [resp429global, resp200]).outcome
            = .success "ok"
          ∧ (runRequest .default (some (.header "t")) [] [resp429global, resp200]).trace
              = [ReqEvent.bucketAcquire, ReqEvent.globalAcquire,
                  ReqEvent.transport (some "t"), ReqEvent.globalThrottle 2,
                  ReqEvent.bucketAcquire, ReqEvent.globalAcquire,
                  ReqEvent.transport (some "t")]
          ∧ countBucketUpdates
              (runRequest .default (some (.header "t")) [] [resp429global, resp200]).trace = 0
          ∧ countTransports
              (runRequest .default (some (.header "t")) [] [resp429global, resp200]).trace = 2) := by
  constructor
  · intro resp h1 h2 h3
    simp [_parse_ratelimits, h1, h2, h3]
  · decide

/-- C5 witness: the Scenario B response evaluated through the classifier. -/
theorem C5_global_ratelimit_throttle_witness :
    _parse_ratelimits resp429global = ⟨.retryRequest, [2]⟩ :=
  C5_global_ratelimit_throttle.1 resp429global rfl rfl rfl

/-- C9 witness: the constructor instance of its unit test, and the transport
header of a concrete authenticated run discharging the membership
hypothesis. -/
theorem C9_token_header_generation_witness :
    RESTClientImpl.init (.str "some_token") (some "tYpe")
        = .ok (some (.header "Type some_token"))
      ∧ (some "token" : Option String) = some "token" :=
  ⟨C9_token_header_generation.1,
   C9_token_header_generation.2.2 "token" [] [resp200] false 0 (some "token") (by decide)⟩

/-- The successful token response used by the strategy unit tests: a Bearer
token valid for one week. -/
def goodTok : OAuthToken := ⟨"Bearer", "okokok.fofofo.ddd", 604800⟩

/-- C3 counterexample: after a refresh failure with error 42, the strategy
does not return to the idle state — the error is cached, and a later acquire
(under a clock where the authorization would now succeed) re-raises the same
error while performing zero new token-authorization calls, refuting the
claim that a later acquire performs a new refresh attempt. -/
theorem C3_counterexample :
    ((initialStrategy.acquire 0 (.error 42)).result = .error 42
        ∧ (initialStrategy.acquire 0 (.error 42)).refreshCalls = 1)
      ∧ (initialStrategy.acquire 0 (.error 42)).state ≠ initialStrategy
      ∧ ((initialStrategy.acquire 0 (.error 42)).state.acquire 5 (.ok goodTok)).result
          = .error 42
      ∧ ((initialStrategy.acquire 0 (.error 42)).state.acquire 5 (.ok goodTok)).refreshCalls
          = 0 := by
  decide

/-- C3 amended: a refresh failure is propagated to the failing caller and
cached on the strategy; every later acquire call — whatever time it runs at
and even if its authorization call would succeed — re-raises the same cached
error and performs no new token-authorization call. -/
theorem C3_amended_error_cached :
    ∀ (e : Nat) (now later : Rat) (auth2 : Except Nat OAuthToken),
      ((initialStrategy.acquire now (.error e)).result = .error e
        ∧ (initialStrategy.acquire now (.error e)).refreshCalls = 1
        ∧ (initialStrategy.acquire now (.error e)).state.exception = some e)
      ∧ (((initialStrategy.acquire now (.error e)).state.acquire later auth2).result
            = .error e
        ∧ ((initialStrategy.acquire now (.error e)).state.acquire later auth2).refreshCalls
            = 0) :=
  fun _ _ _ _ => ⟨⟨rfl, rfl, rfl⟩, rfl, rfl⟩

/-- C6: while the cached token is fresh, any number of serialized acquire
calls return the cached credential string with zero token-authorization
calls; from the empty (idle) state or from a stale cached token, a batch of
N+1 serialized acquire calls performs exactly one token-authorization call
and every caller receives the same new credential string. -/
theorem C6_acquire_single_refresh :
    (∀ (s : ClientCredentialsStrategy) (t : String) (now : Rat)
        (authorize : Except Nat OAuthToken) (n : Nat),
        s.token = some t → s.is_expired now = false →
        acquireMany s now authorize n = (List.replicate n (.ok t), s, 0))
      ∧ (∀ (now : Rat) (tok : OAuthToken) (n : Nat),
          (1 : Rat) ≤ tok.expires_in * 99 / 100 →
          (acquireMany initialStrategy now (.ok tok) (n + 1)).1
              = List.replicate (n + 1) (.ok (tok.token_type ++ " " ++ tok.access_token))
            ∧ (acquireMany initialStrategy now (.ok tok) (n + 1)).2.2 = 1)
      ∧ ∀ (s : ClientCredentialsStrategy) (t0 : String) (now : Rat) (tok : OAuthToken)
          (n : Nat),
          s.token = some t0 → s.is_expired now = true → s.exception = none →
          (1 : Rat) ≤ tok.expires_in * 99 / 100 →
          (acquireMany s now (.ok tok) (n + 1)).1
              = List.replicate (n + 1) (.ok (tok.token_type ++ " " ++ tok.access_token))
            ∧ (acquireMany s now (.ok tok) (n + 1)).2.2 = 1 := by
  have hfresh : ∀ (s : ClientCredentialsStrategy) (t : String) (now : Rat)
      (authorize : Except Nat OAuthToken),
      s.token = some t → s.is_expired now = false →
      s.acquire now authorize = ⟨.ok t, s, 0⟩ := by
    intro s t now authorize ht hexp
    simp [ClientCredentialsStrategy.acquire, ht, hexp]
  have hmany : ∀ (s : ClientCredentialsStrategy) (t : String) (now : Rat)
      (authorize : Except Nat OAuthToken) (n : Nat),
      s.token = some t → s.is_expired now = false →
      acquireMany s now authorize n = (List.replicate n (.ok t), s, 0) := by
    intro s t now authorize n ht hexp
    induction n with
    | zero => rfl
    | succ n ih =>
        simp only [acquireMany, hfresh s t now authorize ht hexp, ih, List.replicate_succ]
  have hfreshState : ∀ (now : Rat) (tok : OAuthToken),
      (1 : Rat) ≤ tok.expires_in * 99 / 100 →
      (ClientCredentialsStrategy.is_expired
        ⟨some (tok.token_type ++ " " ++ tok.access_token),
          now + ((Rat.floor (tok.expires_in * 99 / 100) : Int) : Rat), none⟩ now) = false := by
    intro now tok hpos
    simp only [ClientCredentialsStrategy.is_expired, decide_eq_false_iff_not, not_le]
    have h1 : (1 : Int) ≤ Rat.floor (tok.expires_in * 99 / 100) :=
      Rat.le_floor.mpr (by exact_mod_cast hpos)
    have h2 : (1 : Rat) ≤ ((Rat.floor (tok.expires_in * 99 / 100) : Int) : Rat) := by
      exact_mod_cast h1
    linarith
  have hrefresh : ∀ (s : ClientCredentialsStrategy) (now : Rat) (tok : OAuthToken),
      s.exception = none →
      s.doRefresh now (.ok tok) =
        ⟨.ok (tok.token_type ++ " " ++ tok.access_token),
          ⟨some (tok.token_type ++ " " ++ tok.access_token),
            now + ((Rat.floor (tok.expires_in * 99 / 100) : Int) : Rat), none⟩, 1⟩ := by
    intro s now tok hexc
    simp [ClientCredentialsStrategy.doRefresh, hexc]
  refine ⟨hmany, fun now tok n hpos => ?_, fun s t0 now tok n ht hexp hexc hpos => ?_⟩
  · have hstep : initialStrategy.acquire now (.ok tok) =
        ⟨.ok (tok.token_type ++ " " ++ tok.access_token),
          ⟨some (tok.token_type ++ " " ++ tok.access_token),
            now + ((Rat.floor (tok.expires_in * 99 / 100) : Int) : Rat), none⟩, 1⟩ := by
      simp [ClientCredentialsStrategy.acquire, ClientCredentialsStrategy.acquireLocked,
        initialStrategy, hrefresh]
    simp [acquireMany, hstep,
      hmany _ (tok.token_type ++ " " ++ tok.access_token) now (.ok tok) n rfl
        (hfreshState now tok hpos),
      List.replicate_succ]
  · have hstep : s.acquire now (.ok tok) =
        ⟨.ok (tok.token_type ++ " " ++ tok.access_token),
          ⟨some (tok.token_type ++ " " ++ tok.access_token),
            now + ((Rat.floor (tok.expires_in * 99 / 100) : Int) : Rat), none⟩, 1⟩ := by
      simp [ClientCredentialsStrategy.acquire, ClientCredentialsStrategy.acquireLocked,
        ht, hexp, hrefresh s now tok hexc]
    simp [acquireMany, hstep,
      hmany _ (tok.token_type ++ " " ++ tok.access_token) now (.ok tok) n rfl
        (hfreshState now tok hpos),
      List.replicate_succ]

/-- C6 witness: three serialized acquires on a fresh cache return the cached
string with zero authorization calls; three acquires from the idle state
perform exactly one authorization call and agree on the new string. -/
theorem C6_acquire_single_refresh_witness :
    acquireMany ⟨some "Bearer t", 10, none⟩ 0 (.ok goodTok) 3
        = (List.replicate 3 (.ok "Bearer t"), ⟨some "Bearer t", 10, none⟩, 0)
      ∧ (acquireMany initialStrategy 0 (.ok goodTok) 3).1
          = List.replicate 3 (.ok "Bearer okokok.fofofo.ddd")
      ∧ (acquireMany initialStrategy 0 (.ok goodTok) 3).2.2 = 1 :=
  ⟨C6_acquire_single_refresh.1 ⟨some "Bearer t", 10, none⟩ "Bearer t" 0 (.ok goodTok) 3
      rfl (by decide),
   (C6_acquire_single_refresh.2.1 0 goodTok 2 (by norm_num [goodTok])).1,
   (C6_acquire_single_refresh.2.1 0 goodTok 2 (by norm_num [goodTok])).2⟩

end Hikari
